import Mathlib

/-!
Verification development for the agent-friendly ABI framework.

This file gives a shallow embedding, in Lean, of the deterministic core of the
repository: the metrics engine of `tests/test_metrics.py`
(`MetricsCalculator.normalize_parameter_value`, `calculate_string_similarity`,
`compare_parameters`, `compare_function_calls`, `evaluate_test_case`,
`calculate_aggregate_metrics`), the contract-selection orchestration of
`abi_agent/contract_selector.py` (`select_contracts`, `_fallback_selection`),
and the relevance scorer `ZircuitAgent.find_relevant_contracts` of
`zircuit_agent.py`, together with theorems about them.

Modelling conventions:
* Python strings are `List Char` (`PyStr`); `str.lower`/`str.strip` are
  modelled on ASCII (Unicode case mapping beyond A-Z is out of scope).
* Python numbers are embedded as exact values: `int` as `Int`, float-valued
  similarity scores as `ℚ` (exact rational arithmetic idealizes IEEE floats).
* Python dicts are association lists in insertion order; `dict.get` with a
  default becomes a total lookup with the same default.
* LLM calls are external collaborators: their outcome (a JSON-ish value or a
  raised exception) is an explicit input of the embedded function.
-/

set_option maxHeartbeats 1600000

namespace AbiFw

/-- Python strings, as lists of characters. -/
abbrev PyStr := List Char

/-- Convenience conversion from a Lean string literal to `PyStr`. -/
def S (s : String) : PyStr := s.data

/-- The ASCII whitespace characters recognized by Python's `str.strip()` /
`str.split()` (the Unicode extras are outside the modelled character set). -/
def pyIsSpace (c : Char) : Bool :=
  c = ' ' || c = '\t' || c = '\n' || c = '\r' || c = '\x0b' || c = '\x0c'

/-- One character of Python's `str.lower()`, restricted to ASCII. -/
def pyLowerChar (c : Char) : Char :=
  if 'A' ≤ c ∧ c ≤ 'Z' then Char.ofNat (c.toNat + 32) else c

/-- Python's `str.lower()` (ASCII model). -/
def pyLower (s : PyStr) : PyStr := s.map pyLowerChar

/-- Remove trailing whitespace, i.e. the right half of Python's `str.strip()`. -/
def pyStripEnd (s : PyStr) : PyStr := (s.reverse.dropWhile pyIsSpace).reverse

/-- Python's `str.strip()`: remove leading and trailing whitespace. -/
def pyStrip (s : PyStr) : PyStr := pyStripEnd (s.dropWhile pyIsSpace)

/-- Python's `str.split()` with no argument: split on whitespace runs,
discarding empty fragments. -/
def pySplit (s : PyStr) : List PyStr :=
  (List.splitOnP pyIsSpace s).filter (fun w => !w.isEmpty)

/-- Python's substring test `needle in haystack`, as a Bool on char lists. -/
def pyInStr (needle haystack : PyStr) : Bool :=
  decide (needle <:+: haystack)

/-- Lexicographic (code-point) strict order on strings, as used by Python's
`sorted` on `str` values. -/
def lexLt : PyStr → PyStr → Bool
  | _, [] => false
  | [], _ :: _ => true
  | a :: as', b :: bs => if a < b then true else if b < a then false else lexLt as' bs

/-- Insert into an ascending list, placing the new element before the first
element it is not greater than; folding this over a list left-to-right gives a
stable ascending sort, matching Python's `sorted`/`list.sort`. -/
def insertAscBy {α : Type} (lt : α → α → Bool) (x : α) : List α → List α
  | [] => [x]
  | y :: ys => if lt y x then y :: insertAscBy lt x ys else x :: y :: ys

/-- Stable ascending sort (model of Python's `sorted(...)`). -/
def sortAscBy {α : Type} (lt : α → α → Bool) : List α → List α
  | [] => []
  | x :: xs => insertAscBy lt x (sortAscBy lt xs)

/-- Insert into a descending list, placing the new element before the first
element it is not smaller than; folding gives a stable descending sort,
matching Python's `list.sort(key=..., reverse=True)`. -/
def insertDescBy {α : Type} (key : α → Int) (x : α) : List α → List α
  | [] => [x]
  | y :: ys => if key x < key y then y :: insertDescBy key x ys else x :: y :: ys

/-- Stable descending sort by an integer key (model of Python's stable
`list.sort(key=..., reverse=True)`). -/
def sortDescBy {α : Type} (key : α → Int) : List α → List α
  | [] => []
  | x :: xs => insertDescBy key x (sortDescBy key xs)

/-- Dynamically-typed Python values as they occur in parameter sets, ABIs and
LLM responses: int, bool, str, list, dict (association list in insertion
order).  Floats and arbitrary objects do not occur in the verified claims and
are outside the embedding. -/
inductive PyVal where
  | vInt : Int → PyVal
  | vBool : Bool → PyVal
  | vStr : PyStr → PyVal
  | vList : List PyVal → PyVal
  | vDict : List (PyStr × PyVal) → PyVal

/-- Is this value a Python `str`?  (`isinstance(x, str)`.) -/
def PyVal.isStr : PyVal → Bool
  | .vStr _ => true
  | _ => false

/-- Ordering of `vStr` values by their underlying string; only evaluated under
the all-strings guard of `normalize_parameter_value`. -/
def valLexLt : PyVal → PyVal → Bool
  | .vStr a, .vStr b => lexLt a b
  | _, _ => false

/-- Decimal representation of a Python `int` (`str(value)`). -/
def pyStrOfInt (n : Int) : PyStr := (toString n).data

/-- Lower-case hex digit, as used by `json.dumps` in `\uXXXX` escapes. -/
def hexDigitChar (n : Nat) : Char :=
  if n < 10 then Char.ofNat (48 + n) else Char.ofNat (87 + n)

/-- A `\uXXXX` escape for a code unit below 0x10000. -/
def uEscape (n : Nat) : PyStr :=
  ['\\', 'u', hexDigitChar (n / 4096 % 16), hexDigitChar (n / 256 % 16),
   hexDigitChar (n / 16 % 16), hexDigitChar (n % 16)]

/-- Escaping of one character by `json.dumps` with its default
`ensure_ascii=True`: printable ASCII passes through, the two-character escapes
of the escape table are used where defined, everything else becomes `\uXXXX`
(with surrogate pairs above 0xFFFF). -/
def jsonEscapeChar (c : Char) : PyStr :=
  if c = '"' then ['\\', '"']
  else if c = '\\' then ['\\', '\\']
  else if c = '\x08' then ['\\', 'b']
  else if c = '\x0c' then ['\\', 'f']
  else if c = '\n' then ['\\', 'n']
  else if c = '\r' then ['\\', 'r']
  else if c = '\t' then ['\\', 't']
  else if c.toNat < 32 then uEscape c.toNat
  else if c.toNat < 127 then [c]
  else if c.toNat < 65536 then uEscape c.toNat
  else
    uEscape (55296 + (c.toNat - 65536) / 1024) ++ uEscape (56320 + (c.toNat - 65536) % 1024)

/-- A JSON string literal for `s`. -/
def jsonQuote (s : PyStr) : PyStr :=
  '"' :: s.foldr (fun c acc => jsonEscapeChar c ++ acc) ['"']

mutual

/-- `json.dumps(value)` with default separators; when `sortKeys` is true the
entries of every mapping are emitted in ascending key order
(`sort_keys=True`), otherwise in insertion order. -/
def jsonDumps (sortKeys : Bool) : PyVal → PyStr
  | .vInt n => pyStrOfInt n
  | .vBool b => if b then S "true" else S "false"
  | .vStr s => jsonQuote s
  | .vList xs =>
    '[' :: List.intercalate (S ", ") (jsonDumpsList sortKeys xs) ++ [']']
  | .vDict kvs =>
    let entries := jsonDumpsKvs sortKeys kvs
    let entries := if sortKeys then sortAscBy (fun a b => lexLt a.1 b.1) entries else entries
    '\x7b' :: List.intercalate (S ", ")
      (entries.map (fun e => jsonQuote e.1 ++ S ": " ++ e.2)) ++ ['\x7d']

/-- Serialize every element of a JSON array. -/
def jsonDumpsList (sortKeys : Bool) : List PyVal → List PyStr
  | [] => []
  | v :: vs => jsonDumps sortKeys v :: jsonDumpsList sortKeys vs

/-- Serialize every entry value of a JSON object, keeping its key. -/
def jsonDumpsKvs (sortKeys : Bool) : List (PyStr × PyVal) → List (PyStr × PyStr)
  | [] => []
  | (k, v) :: rest => (k, jsonDumps sortKeys v) :: jsonDumpsKvs sortKeys rest

end

/-- `MetricsCalculator.normalize_parameter_value` (test_metrics.py lines
52-65).  Note the Python subtlety this embedding reproduces: `bool` is a
subclass of `int`, so a boolean input is caught by the leading
`isinstance(value, (int, float))` branch and normalized via `str(value)` to
`"True"`/`"False"`; the dedicated `elif isinstance(value, bool)` branch that
would return `str(value).lower()` is unreachable.  Lists of strings are dumped
sorted (plain `json.dumps`, no key sorting); dicts are dumped with
`sort_keys=True`. -/
def normalize_parameter_value : PyVal → PyStr
  | .vInt n => pyStrOfInt n
  | .vBool b => if b then S "True" else S "False"
  | .vStr s => pyStrip (pyLower s)
  | .vList xs =>
    if xs.all PyVal.isStr then jsonDumps false (.vList (sortAscBy valLexLt xs))
    else jsonDumps false (.vList xs)
  | .vDict kvs => jsonDumps true (.vDict kvs)

/-! ### difflib.SequenceMatcher and calculate_string_similarity

`calculate_string_similarity` (test_metrics.py lines 43-50) returns 0.0 when
either input is empty and otherwise
`difflib.SequenceMatcher(None, str1.lower(), str2.lower()).ratio()`.  The
matcher below is a direct functional transcription of CPython's difflib with
`isjunk=None`: `b2j` maps each character of `b` to its (increasing) positions,
with the autojunk rule discarding popular characters when `len(b) >= 200`. -/

/-- The positions of `c` in `b`, in increasing order (`b2j` before autojunk). -/
def charPositions (b : PyStr) (c : Char) : List Nat :=
  (b.enum.filter (fun p => p.2 = c)).map (fun p => p.1)

/-- difflib's autojunk rule: with `len(b) >= 200`, characters occupying more
than 1% of `b` are treated as junk and dropped from `b2j`. -/
def bPopular (b : PyStr) (c : Char) : Bool :=
  200 ≤ b.length && b.length / 100 + 1 < (charPositions b c).length

/-- `b2j` after autojunk. -/
def b2j (b : PyStr) (c : Char) : List Nat :=
  if bPopular b c then [] else charPositions b c

/-- One row (fixed `i`) of `find_longest_match`'s dynamic program.  The inner
`for j in b2j[a[i]]` skips `j < blo` (continue) and stops at the first
`j >= bhi` (break; sound because positions are increasing).  `j2len` maps a
position of `b` to the length of the longest match ending there in the
previous row; Python's `j2len.get(j-1, 0)` at `j = 0` probes key `-1`, always
absent, which the `j = 0` guard reproduces. -/
def flmRow (a b : PyStr) (blo bhi i : Nat) (j2len : Nat → Nat)
    (st : (Nat → Nat) × Nat × Nat × Nat) : (Nat → Nat) × Nat × Nat × Nat :=
  (((b2j b (a.getD i ' ')).takeWhile (fun j => j < bhi)).filter (fun j => blo ≤ j)).foldl
    (fun st j =>
      let (newj2len, besti, bestj, bestsize) := st
      let k := (if j = 0 then 0 else j2len (j - 1)) + 1
      let newj2len' := fun j' => if j' = j then k else newj2len j'
      if bestsize < k then (newj2len', i + 1 - k, j + 1 - k, k)
      else (newj2len', besti, bestj, bestsize))
    st

/-- The dynamic-programming phase of `find_longest_match`, folding `flmRow`
over `i in range(alo, ahi)`. -/
def flmDP (a b : PyStr) (alo ahi blo bhi : Nat) : Nat × Nat × Nat :=
  ((List.range' alo (ahi - alo)).foldl
    (fun (st : (Nat → Nat) × Nat × Nat × Nat) i =>
      let (j2len, best) := st
      flmRow a b blo bhi i j2len (fun _ => 0, best))
    (fun _ => 0, alo, blo, 0)).2

/-- The two leftward extension loops of `find_longest_match` (`wantJunk` false
for the non-junk loop, true for the junk loop).  The fuel bounds the number of
iterations; `besti` decreases each step, so fuel `besti` is always enough. -/
def extendLo (a b : PyStr) (junk : Char → Bool) (wantJunk : Bool) (alo blo : Nat) :
    Nat → Nat × Nat × Nat → Nat × Nat × Nat
  | 0, st => st
  | fuel + 1, (besti, bestj, bestsize) =>
    if alo < besti ∧ blo < bestj ∧ junk (b.getD (bestj - 1) ' ') = wantJunk ∧
        a.getD (besti - 1) ' ' = b.getD (bestj - 1) ' ' then
      extendLo a b junk wantJunk alo blo fuel (besti - 1, bestj - 1, bestsize + 1)
    else (besti, bestj, bestsize)

/-- The two rightward extension loops of `find_longest_match`; `besti +
bestsize` grows toward `ahi` each step, so fuel `ahi` is always enough. -/
def extendHi (a b : PyStr) (junk : Char → Bool) (wantJunk : Bool) (ahi bhi : Nat) :
    Nat → Nat × Nat × Nat → Nat × Nat × Nat
  | 0, st => st
  | fuel + 1, (besti, bestj, bestsize) =>
    if besti + bestsize < ahi ∧ bestj + bestsize < bhi ∧
        junk (b.getD (bestj + bestsize) ' ') = wantJunk ∧
        a.getD (besti + bestsize) ' ' = b.getD (bestj + bestsize) ' ' then
      extendHi a b junk wantJunk ahi bhi fuel (besti, bestj, bestsize + 1)
    else (besti, bestj, bestsize)

/-- `SequenceMatcher.find_longest_match` on `a[alo:ahi]` / `b[blo:bhi]`:
dynamic program, then the four extension loops (non-junk backward, non-junk
forward, junk backward, junk forward), with `isbjunk` = autojunk popularity. -/
def findLongestMatch (a b : PyStr) (alo ahi blo bhi : Nat) : Nat × Nat × Nat :=
  let st := flmDP a b alo ahi blo bhi
  let st := extendLo a b (bPopular b) false alo blo st.1 st
  let st := extendHi a b (bPopular b) false ahi bhi ahi st
  let st := extendLo a b (bPopular b) true alo blo st.1 st
  extendHi a b (bPopular b) true ahi bhi ahi st

/-- Total size of the matching blocks found by `get_matching_blocks`'s
divide-and-conquer over `find_longest_match` (the later merging of adjacent
blocks and the trailing zero-length sentinel do not change the total).  The
fuel bounds the recursion depth; every recursive call shrinks the interval
pair, so fuel `len(a) + len(b) + 1` is always enough.  Python only enqueues a
subproblem when its interval is non-degenerate; a degenerate interval would
contribute `k = 0`, so recursing unconditionally is equivalent. -/
def matchingBlocksSum (a b : PyStr) : Nat → Nat × Nat × Nat × Nat → Nat
  | 0, _ => 0
  | fuel + 1, (alo, ahi, blo, bhi) =>
    let (i, j, k) := findLongestMatch a b alo ahi blo bhi
    if k = 0 then 0
    else k + matchingBlocksSum a b fuel (alo, i, blo, j) +
      matchingBlocksSum a b fuel (i + k, ahi, j + k, bhi)

/-- `SequenceMatcher.ratio()`: `2 * M / T` with `M` the total matched size and
`T` the total length, and 1.0 when both sequences are empty. -/
def ratioScore (a b : PyStr) : ℚ :=
  let totalMatched := matchingBlocksSum a b (a.length + b.length + 1) (0, a.length, 0, b.length)
  if a.length + b.length = 0 then 1
  else 2 * (totalMatched : ℚ) / ((a.length : ℚ) + b.length)

/-- `MetricsCalculator.calculate_string_similarity` (test_metrics.py lines
43-50): 0.0 when either string is empty (Python falsiness of the empty
string), else the matcher ratio of the lower-cased strings. -/
def calculate_string_similarity (str1 str2 : PyStr) : ℚ :=
  if str1.isEmpty || str2.isEmpty then 0
  else ratioScore (pyLower str1) (pyLower str2)

/-! ### compare_parameters -/

/-- Association-list lookup, the model of Python dict indexing. -/
def pyLookup (kvs : List (PyStr × PyVal)) (k : PyStr) : Option PyVal :=
  List.lookup k kvs

/-- The keys of a parameter set, in insertion order. -/
def keysOf (kvs : List (PyStr × PyVal)) : List PyStr := kvs.map (fun kv => kv.1)

/-- The literal list `['amount', 'value', '_mintfee']` of test_metrics.py
line 102. -/
def amountLikeKeys : List PyStr := [S "amount", S "value", S "_mintfee"]

/-- Python `str.isdigit()` on the ASCII fragment: non-empty and all decimal
digits. -/
def isDigitStr (s : PyStr) : Bool :=
  !s.isEmpty && s.all (fun c => '0' ≤ c && c ≤ '9')

/-- `int(s)` for a string of decimal digits. -/
def digitsToNat (s : PyStr) : Nat :=
  s.foldl (fun acc c => acc * 10 + (c.toNat - 48)) 0

/-- The per-key similarity contribution inside `compare_parameters`
(test_metrics.py lines 93-116), on already-normalized value strings: 1.0 on
equality; for the amount-like keys with two digit strings the tolerance
formula `max(0, 1 - |a-b| / max(a, b, 1))`; otherwise the string similarity.
The `except ValueError` arm is unreachable for ASCII digit strings (`int`
cannot fail on them) and has no counterpart here. -/
def perKeySimilarity (key : PyStr) (expected_val actual_val : PyStr) : ℚ :=
  if expected_val = actual_val then 1
  else if pyLower key ∈ amountLikeKeys ∧ isDigitStr expected_val ∧ isDigitStr actual_val then
    let e : ℚ := digitsToNat expected_val
    let a : ℚ := digitsToNat actual_val
    max 0 (1 - |e - a| / max (max e a) 1)
  else calculate_string_similarity expected_val actual_val

/-- The normalized value of key `k` in a parameter set (only evaluated for
present keys; the default never surfaces). -/
def normalizedAt (kvs : List (PyStr × PyVal)) (k : PyStr) : PyStr :=
  normalize_parameter_value ((pyLookup kvs k).getD (.vStr []))

/-- `MetricsCalculator.compare_parameters` (test_metrics.py lines 67-125),
returning `(exact_match, overall_similarity)`.  Key sets are modelled by the
(duplicate-free, for genuine dicts) key lists; the intersection is traversed
in expected-key order — Python iterates a set in unspecified order, and every
consumer (count, sum, length) is order-independent. -/
def compare_parameters (actual expected : List (PyStr × PyVal)) : Bool × ℚ :=
  if actual.isEmpty && expected.isEmpty then (true, 1)
  else if actual.isEmpty || expected.isEmpty then (false, 0)
  else
    let expected_keys := keysOf expected
    let actual_keys := keysOf actual
    let key_intersection := expected_keys.filter (fun k => actual_keys.contains k)
    let key_union := expected_keys ++ actual_keys.filter (fun k => !expected_keys.contains k)
    let key_similarity : ℚ :=
      if key_union.isEmpty then 1
      else (key_intersection.length : ℚ) / key_union.length
    let value_similarities := key_intersection.map
      (fun k => perKeySimilarity k (normalizedAt expected k) (normalizedAt actual k))
    let exact_matches := key_intersection.countP
      (fun k => decide (normalizedAt expected k = normalizedAt actual k))
    let avg_value_similarity : ℚ :=
      if value_similarities.isEmpty then 0
      else value_similarities.sum / value_similarities.length
    let overall_similarity := (key_similarity + avg_value_similarity) / 2
    let exact_match :=
      decide (expected_keys.length = actual_keys.length ∧ actual_keys.length = exact_matches)
    (exact_match, overall_similarity)

/-! ### compare_function_calls -/

/-- One function call as consumed by the metrics code: the call dict's
`function_name` (default `''`), `parameters` (default `{}`) and `value`
(default `'0'`); the defaults of the Python `.get` accesses are represented by
the corresponding field values. -/
structure FCall where
  function_name : PyStr
  parameters : List (PyStr × PyVal)
  value : PyVal

/-- The result dictionary of `compare_function_calls`.  In the two early
branches of the Python code the three accuracy keys are absent from the dict;
every consumer reads them via `.get(..., 0.0)`, so the embedding carries them
as 0 there. -/
structure FCMetrics where
  exact_match : Bool
  function_name_match : Bool
  parameter_match : Bool
  value_match : Bool
  call_count_match : Bool
  similarity_score : ℚ
  function_name_accuracy : ℚ
  parameter_accuracy : ℚ
  value_accuracy : ℚ

/-- `MetricsCalculator.compare_function_calls` (test_metrics.py lines
127-210).  The per-position loop over `range(min(len(actual), len(expected)))`
is the zip of the two lists. -/
def compare_function_calls (actual expected : List FCall) : FCMetrics :=
  if actual.isEmpty && expected.isEmpty then
    ⟨true, true, true, true, true, 1, 0, 0, 0⟩
  else if actual.isEmpty || expected.isEmpty then
    ⟨false, false, false, false, false, 0, 0, 0, 0⟩
  else
    let call_count_match := decide (actual.length = expected.length)
    let paired := actual.zip expected
    let function_matches := paired.map
      (fun p => decide (pyLower p.1.function_name = pyLower p.2.function_name))
    let parameter_matches := paired.map
      (fun p => (compare_parameters p.1.parameters p.2.parameters).2)
    let value_matches := paired.map
      (fun p => decide (normalize_parameter_value p.1.value = normalize_parameter_value p.2.value))
    let function_name_accuracy : ℚ :=
      if function_matches.isEmpty then 0
      else (function_matches.count true : ℚ) / function_matches.length
    let parameter_accuracy : ℚ :=
      if parameter_matches.isEmpty then 0
      else parameter_matches.sum / parameter_matches.length
    let value_accuracy : ℚ :=
      if value_matches.isEmpty then 0
      else (value_matches.count true : ℚ) / value_matches.length
    let similarity_score :=
      function_name_accuracy * (0.4 : ℚ) + parameter_accuracy * (0.4 : ℚ) +
        value_accuracy * (0.2 : ℚ)
    let exact_match := call_count_match && decide (function_name_accuracy = 1) &&
      parameter_matches.all (fun p => decide ((0.95 : ℚ) ≤ p)) &&
      decide (value_accuracy = 1)
    ⟨exact_match, decide (function_name_accuracy = 1),
      decide ((0.9 : ℚ) ≤ parameter_accuracy), decide (value_accuracy = 1),
      call_count_match, similarity_score, function_name_accuracy,
      parameter_accuracy, value_accuracy⟩

/-! ### evaluate_test_case and calculate_aggregate_metrics -/

/-- The agent-result dictionary as read by `evaluate_test_case`:
`success` (default False), `error`, `rewritten_query` (default `''`),
`selected_contract.address` (default `''`, flattening the nested `.get`
chain), and `function_calls.function_calling` (default `[]`). -/
structure AgentResult where
  success : Bool
  error : Option PyStr
  rewritten_query : PyStr
  selected_contract_address : PyStr
  function_calls : List FCall

/-- The ground-truth test-case record as read by `evaluate_test_case`:
`test_case_id` (default `'unknown'`), `expected_rewritten_query` (default
`''`), `assumed_contract_address` (default `''`) and
`ground_truth_function_calls.function_calling` (default `[]`). -/
structure ExpectedResult where
  test_case_id : PyStr
  expected_rewritten_query : PyStr
  assumed_contract_address : PyStr
  ground_truth_function_calls : List FCall

/-- The evaluation dictionary produced by `evaluate_test_case`. -/
structure Evaluation where
  success : Bool
  error : Option PyStr
  test_case_id : PyStr
  overall_match : Bool
  function_calls_match : Bool
  rewritten_query_similarity : ℚ
  contract_selection_match : Bool
  function_call_metrics : FCMetrics

/-- `MetricsCalculator.evaluate_test_case` (test_metrics.py lines 212-275).
On failure the function-call metrics dict carries explicit zero accuracies;
its flag keys other than `exact_match` are absent in Python and carried as
false here (consumers read them via `.get(..., False)`). -/
def evaluate_test_case (actual_result : AgentResult) (expected_result : ExpectedResult) :
    Evaluation :=
  if !actual_result.success then
    { success := actual_result.success
      error := actual_result.error
      test_case_id := expected_result.test_case_id
      overall_match := false
      function_calls_match := false
      rewritten_query_similarity := 0
      contract_selection_match := false
      function_call_metrics := ⟨false, false, false, false, false, 0, 0, 0, 0⟩ }
  else
    let query_similarity := calculate_string_similarity
      actual_result.rewritten_query expected_result.expected_rewritten_query
    let selected_contract := actual_result.selected_contract_address
    let expected_contract := expected_result.assumed_contract_address
    let contract_match :=
      if !selected_contract.isEmpty && !expected_contract.isEmpty then
        decide (pyLower selected_contract = pyLower expected_contract)
      else false
    let function_call_metrics := compare_function_calls
      actual_result.function_calls expected_result.ground_truth_function_calls
    let overall_match := decide ((0.7 : ℚ) ≤ query_similarity) && contract_match &&
      function_call_metrics.exact_match
    { success := actual_result.success
      error := actual_result.error
      test_case_id := expected_result.test_case_id
      overall_match := overall_match
      function_calls_match := function_call_metrics.exact_match
      rewritten_query_similarity := query_similarity
      contract_selection_match := contract_match
      function_call_metrics := function_call_metrics }

/-- The `TestMetrics` dataclass of test_metrics.py. -/
structure TestMetrics where
  total_tests : Nat
  successful_tests : Nat
  failed_tests : Nat
  accuracy : ℚ
  function_name_accuracy : ℚ
  parameter_accuracy : ℚ
  value_accuracy : ℚ
  rewritten_query_similarity : ℚ
  contract_selection_accuracy : ℚ
  function_name_matches : Nat
  parameter_matches : Nat
  value_matches : Nat
  contract_matches : Nat
  reasoning_quality_score : ℚ
deriving DecidableEq

/-- `MetricsCalculator.calculate_aggregate_metrics` (test_metrics.py lines
277-353). -/
def calculate_aggregate_metrics (evaluations : List Evaluation) : TestMetrics :=
  let total_tests := evaluations.length
  if total_tests = 0 then
    ⟨0, 0, 0, 0, 0, 0, 0, 0, 0, 0, 0, 0, 0, 0⟩
  else
    let successful_tests := evaluations.countP (fun e => e.overall_match)
    let failed_tests := total_tests - successful_tests
    let query_similarities := evaluations.map (fun e => e.rewritten_query_similarity)
    let contract_matches := evaluations.countP (fun e => e.contract_selection_match)
    let function_name_accuracies :=
      evaluations.map (fun e => e.function_call_metrics.function_name_accuracy)
    let parameter_accuracies :=
      evaluations.map (fun e => e.function_call_metrics.parameter_accuracy)
    let value_accuracies :=
      evaluations.map (fun e => e.function_call_metrics.value_accuracy)
    let function_name_matches :=
      evaluations.countP (fun e => e.function_call_metrics.function_name_match)
    let parameter_matches :=
      evaluations.countP (fun e => e.function_call_metrics.parameter_match)
    let value_matches :=
      evaluations.countP (fun e => e.function_call_metrics.value_match)
    let accuracy : ℚ := (successful_tests : ℚ) / total_tests
    let avg_query_similarity := query_similarities.sum / query_similarities.length
    let contract_selection_accuracy : ℚ := (contract_matches : ℚ) / total_tests
    let avg_function_name_accuracy :=
      function_name_accuracies.sum / function_name_accuracies.length
    let avg_parameter_accuracy := parameter_accuracies.sum / parameter_accuracies.length
    let avg_value_accuracy := value_accuracies.sum / value_accuracies.length
    let reasoning_quality :=
      (avg_query_similarity + avg_function_name_accuracy + avg_parameter_accuracy) / 3
    ⟨total_tests, successful_tests, failed_tests, accuracy,
      avg_function_name_accuracy, avg_parameter_accuracy, avg_value_accuracy,
      avg_query_similarity, contract_selection_accuracy, function_name_matches,
      parameter_matches, value_matches, contract_matches, reasoning_quality⟩

/-! ### ContractSelector (abi_agent/contract_selector.py)

`select_contracts` feeds simplified ABIs to the LLM and post-processes its
answer; `_fallback_selection` is the deterministic keyword scorer used by the
`except` branch.  The collaborator call is the only fallible step of the
`try` block on well-formed inputs, so its outcome — a returned JSON-ish value
or a raised exception — is an explicit argument of the embedding
(`LLMOutcome`).  The simplified-ABI construction only shapes the prompt and
never influences the returned value, so it needs no embedding here. -/

/-- Key membership in a Python dict. -/
def hasKey (kvs : List (PyStr × PyVal)) (k : PyStr) : Bool :=
  kvs.any (fun kv => kv.1 == k)

/-- `contract_data.get('enhanced_abi', contract_data)` followed by
`.items()`: a present dict value yields its entries, an absent key falls back
to the contract dict itself.  (A present non-dict value would raise on
`.items()` in Python; the embedding assumes dict-typed `enhanced_abi`
values.) -/
def getDictOr (kvs : List (PyStr × PyVal)) (k : PyStr) : List (PyStr × PyVal) :=
  match List.lookup k kvs with
  | some (.vDict inner) => inner
  | _ => kvs

/-- The function-entry test shared by `create_simplified_abi`,
`_fallback_selection` and `find_relevant_contracts`: a dict having any of the
keys `stateMutability`, `inputs`, `parameters`, `name`. -/
def isFunctionEntry : PyVal → Bool
  | .vDict kvs =>
    hasKey kvs (S "stateMutability") || hasKey kvs (S "inputs") ||
      hasKey kvs (S "parameters") || hasKey kvs (S "name")
  | _ => false

/-- `func_data.get('description', '')`.  (A non-string description would raise
on the subsequent `.lower()` in Python; the embedding assumes string-typed
descriptions.) -/
def descriptionOf : PyVal → PyStr
  | .vDict kvs =>
    match List.lookup (S "description") kvs with
    | some (.vStr s) => s
    | _ => []
  | _ => []

/-- The score one function entry contributes in `_fallback_selection`
(contract_selector.py lines 179-196): per query word longer than 2
characters, +3 for a substring hit in the lowered function name and +1 for a
hit in the lowered description. -/
def fallbackFunctionScore (query_words : List PyStr) (func_name : PyStr)
    (func_data : PyVal) : Int :=
  let func_name_lower := pyLower func_name
  let description := pyLower (descriptionOf func_data)
  query_words.foldl
    (fun acc word =>
      acc + (if pyInStr word func_name_lower then 3 else 0) +
        (if pyInStr word description then 1 else 0))
    0

/-- A contract's total `_fallback_selection` score: the sum over its
function-like ABI entries. -/
def fallbackContractScore (query_words : List PyStr)
    (contract_data : List (PyStr × PyVal)) : Int :=
  (getDictOr contract_data (S "enhanced_abi")).foldl
    (fun acc kv =>
      if isFunctionEntry kv.2 then acc + fallbackFunctionScore query_words kv.1 kv.2
      else acc)
    0

/-- `ContractSelector._fallback_selection` (contract_selector.py lines
161-203): score each contract, keep positive scores, stable-sort descending
by score, return the first `max_contracts` addresses. -/
def fallback_selection (user_query : PyStr)
    (enhanced_abis : List (PyStr × List (PyStr × PyVal))) (max_contracts : Nat) :
    List PyStr :=
  let query_words := (pySplit (pyLower user_query)).filter (fun w => 2 < w.length)
  let scored_contracts := enhanced_abis.filterMap
    (fun ab =>
      let score := fallbackContractScore query_words ab.2
      if 0 < score then some (ab.1, score) else none)
  ((sortDescBy (fun sc => sc.2) scored_contracts).take max_contracts).map (fun sc => sc.1)

/-- The observable behavior of the LLM call inside `select_contracts`: either
an exception or a returned (already JSON-decoded) value. -/
inductive LLMOutcome where
  | raises
  | returns : PyVal → LLMOutcome

/-- Address extraction from one element of `selected_contracts`
(contract_selector.py lines 147-151): a dict contributes its
`contract_address` value when the key is present, a string contributes
itself, anything else is skipped. -/
def extractContractAddress : PyVal → Option PyVal
  | .vDict kvs => List.lookup (S "contract_address") kvs
  | .vStr s => some (.vStr s)
  | _ => none

/-- `ContractSelector.select_contracts` (contract_selector.py lines 99-159).
A raised exception reaches the `except` branch and delegates to
`_fallback_selection`; an invalid result — not a dict, missing
`selected_contracts`, or a non-list `selected_contracts` — returns `[]`
directly (lines 136-143), without fallback. -/
def select_contracts (user_query : PyStr)
    (enhanced_abis : List (PyStr × List (PyStr × PyVal))) (max_contracts : Nat)
    (outcome : LLMOutcome) : List PyVal :=
  match outcome with
  | .raises => (fallback_selection user_query enhanced_abis max_contracts).map PyVal.vStr
  | .returns result =>
    match result with
    | .vDict kvs =>
      match List.lookup (S "selected_contracts") kvs with
      | none => []
      | some selected =>
        match selected with
        | .vList contracts => (contracts.filterMap extractContractAddress).take max_contracts
        | _ => []
    | _ => []

/-! ### ZircuitAgent.find_relevant_contracts (zircuit_agent.py lines 239-347) -/

/-- One entry of the scored-candidate dicts built by
`find_relevant_contracts`. -/
structure RelevantContract where
  address : PyStr
  score : Int
  contract_data : List (PyStr × PyVal)
  matched_functions : List PyStr

/-- The `action_keywords` table (zircuit_agent.py lines 263-272), in source
order. -/
def action_keywords : List (PyStr × List PyStr) :=
  [(S "add", [S "add", S "new", S "create"]),
   (S "remove", [S "remove", S "delete", S "drop"]),
   (S "swap", [S "swap", S "replace", S "change", S "update"]),
   (S "owner", [S "owner", S "owners", S "ownership"]),
   (S "threshold", [S "threshold", S "limit", S "confirm", S "confirmation"]),
   (S "transfer", [S "transfer", S "send", S "move"]),
   (S "approve", [S "approve", S "allow", S "permit"]),
   (S "execute", [S "execute", S "run", S "call"])]

/-- The score and matched-function names one dict-typed function entry
contributes in `find_relevant_contracts` (lines 285-322): the high-value
if/elif chain, then the action-keyword pass, then the general word-overlap
pass. -/
def agentFunctionScore (query_lower : PyStr) (func_name : PyStr) (func_data : PyVal) :
    Int × List PyStr :=
  let func_name_lower := pyLower func_name
  let description := pyLower (descriptionOf func_data)
  let high :=
    if pyInStr (S "addowner") func_name_lower &&
        ([S "add", S "new", S "owner"].any (fun w => pyInStr w query_lower)) then
      ((10 : Int), [func_name])
    else if pyInStr (S "removeowner") func_name_lower &&
        ([S "remove", S "delete", S "owner"].any (fun w => pyInStr w query_lower)) then
      ((10 : Int), [func_name])
    else if pyInStr (S "swapowner") func_name_lower &&
        ([S "swap", S "replace", S "change", S "owner"].any (fun w => pyInStr w query_lower)) then
      ((10 : Int), [func_name])
    else if pyInStr (S "threshold") func_name_lower && pyInStr (S "threshold") query_lower then
      ((8 : Int), [func_name])
    else ((0 : Int), [])
  let semantic := action_keywords.foldl
    (fun acc ak =>
      if pyInStr ak.1 query_lower then
        let nameHit := ak.2.any (fun kw => pyInStr kw func_name_lower)
        let descHit := ak.2.any (fun kw => pyInStr kw description)
        (acc.1 + (if nameHit then 5 else 0) + (if descHit then 3 else 0),
         acc.2 ++ (if nameHit then [func_name] else []))
      else acc)
    ((0 : Int), ([] : List PyStr))
  let general := (pySplit query_lower).foldl
    (fun acc word =>
      if 3 < word.length then
        acc + (if pyInStr word func_name_lower then 2 else 0) +
          (if pyInStr word description then 1 else 0)
      else acc)
    (0 : Int)
  (high.1 + semantic.1 + general, high.2 ++ semantic.2)

/-- The `contract_data.get('enhanced_abi', {}).get('functions', {})` chain of
`find_relevant_contracts` (both defaults are the empty dict). -/
def functionsOf (contract_data : List (PyStr × PyVal)) : List (PyStr × PyVal) :=
  let enhanced_abi : List (PyStr × PyVal) :=
    match List.lookup (S "enhanced_abi") contract_data with
    | some (PyVal.vDict e) => e
    | _ => []
  match List.lookup (S "functions") enhanced_abi with
  | some (PyVal.vDict fs) => fs
  | _ => []

/-- Scoring of one candidate contract in `find_relevant_contracts`: skip the
contract when it has no functions (`continue`), sum the per-function scores
over dict-typed entries, apply the multi-match bonus (+3) and the
few-functions penalty (−2), and keep the candidate only when the final score
is positive. -/
def scoreContract (query_lower : PyStr) (ab : PyStr × List (PyStr × PyVal)) :
    Option RelevantContract :=
  let functions := functionsOf ab.2
  if functions.isEmpty then none
  else
    let scored := functions.foldl
      (fun acc kv =>
        match kv.2 with
        | .vDict _ =>
          let r := agentFunctionScore query_lower kv.1 kv.2
          (acc.1 + r.1, acc.2 ++ r.2)
        | _ => acc)
      ((0 : Int), ([] : List PyStr))
    let matched_functions := scored.2
    let score := scored.1 + (if 1 < matched_functions.length then 3 else 0) -
      (if functions.length < 3 then 2 else 0)
    if 0 < score then some ⟨ab.1, score, ab.2, matched_functions⟩ else none

/-- The scored candidates with positive score, in original candidate
(insertion) order — the `relevant_contracts` list right before the sort. -/
def relevantCandidates (enhanced_abis : List (PyStr × List (PyStr × PyVal)))
    (query : PyStr) : List RelevantContract :=
  enhanced_abis.filterMap (scoreContract (pyLower query))

/-- `ZircuitAgent.find_relevant_contracts`: build the positive-score
candidates, stable-sort them descending by score (Python's stable
`list.sort(..., reverse=True)`), and truncate to `max_contracts`. -/
def find_relevant_contracts (enhanced_abis : List (PyStr × List (PyStr × PyVal)))
    (query : PyStr) (max_contracts : Nat) : List RelevantContract :=
  (sortDescBy (fun rc => rc.score) (relevantCandidates enhanced_abis query)).take
    max_contracts

/-! ### Concrete fixtures used by counterexamples and witnesses -/

/-- A one-contract candidate set whose single ABI entry is the ERC20-style
`transfer` function (no `enhanced_abi` wrapper, so the contract dict itself is
scanned, as in the selector's mock data). -/
def c1Abis : List (PyStr × List (PyStr × PyVal)) :=
  [(S "0x456",
    [(S "transfer",
      .vDict [(S "inputs", .vList []),
              (S "description", .vStr (S "transfer tokens to another address"))])])]

/-- A multisig-style contract in the agent's `enhanced_abi.functions` shape,
with three functions. -/
def c5ContractData : List (PyStr × PyVal) :=
  [(S "enhanced_abi",
    .vDict [(S "functions",
      .vDict [(S "addOwner",
                .vDict [(S "description", .vStr (S "add a new owner to the wallet"))]),
              (S "removeOwner",
                .vDict [(S "description", .vStr (S "remove an owner"))]),
              (S "changeThreshold",
                .vDict [(S "description", .vStr (S "change the threshold"))])])])]

/-- A one-contract candidate set built from `c5ContractData`. -/
def c5Abis : List (PyStr × List (PyStr × PyVal)) :=
  [(S "0xSafe", c5ContractData)]

/-- The scored candidate `find_relevant_contracts` produces for `c5Abis` and
the query `add a new owner` (score 10+8+8 for `addOwner`, 10+8 for
`removeOwner`, +3 general word overlap per owner-named function, +3
multi-match bonus). -/
def c5Candidate : RelevantContract :=
  ⟨S "0xSafe", 53, c5ContractData,
   [S "addOwner", S "addOwner", S "addOwner", S "removeOwner", S "removeOwner"]⟩

/-- The ground-truth bridge-deposit call of the end-to-end scenario. -/
def fixtureCall : FCall :=
  ⟨S "deposit",
   [(S "token", .vStr (S "0xTokenToDeposit")),
    (S "amount", .vInt 150000000000000000000)],
   .vStr (S "0")⟩

/-- An agent result whose rewritten query is empty but whose contract address
and produced calls match the expectation exactly. -/
def c10Actual : AgentResult :=
  ⟨true, none, [], S "0xBridgeContractAddress001", [fixtureCall]⟩

/-- The matching expectation for `c10Actual`, also with an empty expected
rewritten query. -/
def c10Expected : ExpectedResult :=
  ⟨S "bridge_deposit_001", [], S "0xBridgeContractAddress001", [fixtureCall]⟩

/-! ## Helper lemmas

General facts about the stable descending sort and about the Python string
primitives, shared by the claim theorems below. -/

theorem contains_iff_mem {α : Type} [BEq α] [LawfulBEq α] (l : List α) (a : α) :
    l.contains a = true ↔ a ∈ l := by
  simp [List.contains, List.elem_iff]

theorem mem_insertDescBy {α : Type} (key : α → Int) (x : α) (l : List α) (a : α) :
    a ∈ insertDescBy key x l ↔ a = x ∨ a ∈ l := by
  induction l with
  | nil => simp [insertDescBy]
  | cons y ys ih =>
    simp only [insertDescBy]
    split
    · rw [List.mem_cons, ih, List.mem_cons]
      tauto
    · rw [List.mem_cons]

theorem pairwise_insertDescBy {α : Type} (key : α → Int) (x : α) (l : List α)
    (h : l.Pairwise (fun a b => key b ≤ key a)) :
    (insertDescBy key x l).Pairwise (fun a b => key b ≤ key a) := by
  induction l with
  | nil => simp [insertDescBy]
  | cons y ys ih =>
    rw [List.pairwise_cons] at h
    obtain ⟨hy, hys⟩ := h
    simp only [insertDescBy]
    split
    · rename_i hlt
      rw [List.pairwise_cons]
      refine ⟨fun b hb => ?_, ih hys⟩
      rw [mem_insertDescBy] at hb
      rcases hb with rfl | hb
      · exact le_of_lt hlt
      · exact hy b hb
    · rename_i hnlt
      push_neg at hnlt
      rw [List.pairwise_cons]
      refine ⟨fun b hb => ?_, List.pairwise_cons.mpr ⟨hy, hys⟩⟩
      rcases List.mem_cons.mp hb with rfl | hb
      · exact hnlt
      · exact le_trans (hy b hb) hnlt

theorem pairwise_sortDescBy {α : Type} (key : α → Int) (l : List α) :
    (sortDescBy key l).Pairwise (fun a b => key b ≤ key a) := by
  induction l with
  | nil => simp [sortDescBy]
  | cons x xs ih => exact pairwise_insertDescBy key x _ ih

theorem filter_insertDescBy {α : Type} (key : α → Int) (s : Int) (x : α) (l : List α) :
    (insertDescBy key x l).filter (fun a => decide (key a = s)) =
      if key x = s then x :: l.filter (fun a => decide (key a = s))
      else l.filter (fun a => decide (key a = s)) := by
  induction l with
  | nil => by_cases h : key x = s <;> simp [insertDescBy, List.filter_cons, h]
  | cons y ys ih =>
    simp only [insertDescBy]
    split
    · rename_i hlt
      by_cases hx : key x = s
      · have hy : ¬ key y = s := by
          have : key x < key y := hlt
          omega
        simp [List.filter_cons, hx, hy, ih]
      · simp [List.filter_cons, hx, ih]
    · by_cases hx : key x = s
      · simp [List.filter_cons, hx]
      · simp [List.filter_cons, hx]

theorem filter_sortDescBy {α : Type} (key : α → Int) (s : Int) (l : List α) :
    (sortDescBy key l).filter (fun a => decide (key a = s)) =
      l.filter (fun a => decide (key a = s)) := by
  induction l with
  | nil => simp [sortDescBy]
  | cons x xs ih =>
    simp only [sortDescBy, filter_insertDescBy, ih, List.filter_cons]
    split <;> simp_all

theorem mem_sortDescBy {α : Type} (key : α → Int) (l : List α) (a : α) :
    a ∈ sortDescBy key l ↔ a ∈ l := by
  induction l with
  | nil => simp [sortDescBy]
  | cons x xs ih => simp [sortDescBy, mem_insertDescBy, ih]

theorem pyLowerChar_not_upper (c : Char) :
    ¬('A' ≤ pyLowerChar c ∧ pyLowerChar c ≤ 'Z') := by
  by_cases h : 'A' ≤ c ∧ c ≤ 'Z'
  · rw [pyLowerChar, if_pos h]
    obtain ⟨h1, h2⟩ := h
    rw [Char.le_def] at h1 h2
    have hb1 : 65 ≤ c.toNat := h1
    have hb2 : c.toNat ≤ 90 := h2
    generalize c.toNat = n at hb1 hb2 ⊢
    interval_cases n <;> decide
  · rw [pyLowerChar, if_neg h]
    exact h

theorem pyLowerChar_idem (c : Char) : pyLowerChar (pyLowerChar c) = pyLowerChar c := by
  have h := pyLowerChar_not_upper c
  rw [pyLowerChar, if_neg h]

theorem pyLower_fixed_of_mem (l : PyStr) (h : ∀ c ∈ l, pyLowerChar c = c) :
    pyLower l = l := by
  unfold pyLower
  calc l.map pyLowerChar = l.map id := List.map_congr_left h
  _ = l := List.map_id l

theorem mem_pyStrip (l : PyStr) (a : Char) (h : a ∈ pyStrip l) : a ∈ l := by
  unfold pyStrip pyStripEnd at h
  have h1 := List.mem_reverse.mp h
  have h2 := (List.dropWhile_sublist _).subset h1
  have h3 := List.mem_reverse.mp h2
  exact (List.dropWhile_sublist _).subset h3

theorem pyLower_pyStrip_pyLower (s : PyStr) :
    pyLower (pyStrip (pyLower s)) = pyStrip (pyLower s) := by
  apply pyLower_fixed_of_mem
  intro c hc
  have hmem : c ∈ pyLower s := mem_pyStrip _ _ hc
  obtain ⟨c', _, rfl⟩ := List.mem_map.mp hmem
  exact pyLowerChar_idem c'

theorem dropWhile_dropWhile (p : Char → Bool) (l : PyStr) :
    List.dropWhile p (List.dropWhile p l) = List.dropWhile p l := by
  induction l with
  | nil => rfl
  | cons a l ih =>
    rw [List.dropWhile_cons]
    by_cases h : p a
    · simp [h, ih]
    · simp [h, List.dropWhile_cons]

theorem dropWhile_append_singleton (p : Char → Bool) (w : PyStr) (a : Char)
    (h : p a = false) :
    List.dropWhile p (w ++ [a]) = List.dropWhile p w ++ [a] := by
  induction w with
  | nil => simp [List.dropWhile_cons, h]
  | cons c w' ih =>
    rw [List.cons_append, List.dropWhile_cons, List.dropWhile_cons]
    by_cases hc : p c
    · simp [hc, ih]
    · simp [hc]

theorem dropWhile_eq_cons_imp (p : Char → Bool) (l : PyStr) (a : Char) (t : PyStr)
    (h : List.dropWhile p l = a :: t) : p a = false := by
  induction l with
  | nil => simp [List.dropWhile] at h
  | cons c l ih =>
    rw [List.dropWhile_cons] at h
    by_cases hc : p c
    · rw [if_pos hc] at h
      exact ih h
    · rw [if_neg hc] at h
      obtain ⟨rfl, -⟩ := List.cons.injEq .. ▸ h
      · simpa using hc

theorem pyStripEnd_cons (a : Char) (ys : PyStr) (h : pyIsSpace a = false) :
    pyStripEnd (a :: ys) = a :: pyStripEnd ys := by
  unfold pyStripEnd
  rw [List.reverse_cons, dropWhile_append_singleton _ _ _ h, List.reverse_append]
  simp

theorem pyStripEnd_idem (l : PyStr) : pyStripEnd (pyStripEnd l) = pyStripEnd l := by
  unfold pyStripEnd
  rw [List.reverse_reverse, dropWhile_dropWhile]

theorem dropWhile_pyStrip (l : PyStr) :
    List.dropWhile pyIsSpace (pyStrip l) = pyStrip l := by
  unfold pyStrip
  cases hy : List.dropWhile pyIsSpace l with
  | nil => simp [pyStripEnd]
  | cons a ys =>
    have ha : pyIsSpace a = false := dropWhile_eq_cons_imp _ _ _ _ hy
    rw [pyStripEnd_cons a ys ha, List.dropWhile_cons, ha]
    simp

theorem pyStrip_idem (l : PyStr) : pyStrip (pyStrip l) = pyStrip l := by
  calc pyStrip (pyStrip l) = pyStripEnd (List.dropWhile pyIsSpace (pyStrip l)) := rfl
  _ = pyStripEnd (pyStrip l) := by rw [dropWhile_pyStrip]
  _ = pyStripEnd (pyStripEnd (List.dropWhile pyIsSpace l)) := rfl
  _ = pyStripEnd (List.dropWhile pyIsSpace l) := pyStripEnd_idem _
  _ = pyStrip l := rfl

/-! ## Claim theorems -/

/-- C1 counterexample: with one matching candidate and a malformed model
response (a string instead of a dict), `select_contracts` returns the empty
list even though the fallback scorer over the same candidates would return
the candidate — so a malformed response does *not* fall back to relevance
scoring, and the empty result is not a total failure. -/
theorem claim_C1_counterexample :
    select_contracts (S "transfer tokens") c1Abis 3 (.returns (.vStr (S "oops"))) = [] ∧
    fallback_selection (S "transfer tokens") c1Abis 3 = [S "0x456"] ∧
    select_contracts (S "transfer tokens") c1Abis 3 (.returns (.vStr (S "oops"))) ≠
      (fallback_selection (S "transfer tokens") c1Abis 3).map PyVal.vStr := by
  have h2 : fallback_selection (S "transfer tokens") c1Abis 3 = [S "0x456"] := by
    with_unfolding_all decide
  refine ⟨rfl, h2, ?_⟩
  rw [h2]
  intro hEq
  have h3 : ([] : List PyVal) = [PyVal.vStr (S "0x456")] := hEq
  exact List.noConfusion h3

/-- C1 (amended): only a raised exception triggers the fallback, and then the
result is exactly the fallback scorer's addresses over the same candidates;
every path returns at most `max_contracts` entries; a malformed model
response — a dict without `selected_contracts`, or a non-dict — returns the
empty list directly, without invoking the fallback. -/
theorem claim_C1_amended :
    (∀ (q : PyStr) (abis : List (PyStr × List (PyStr × PyVal))) (maxc : Nat),
      select_contracts q abis maxc .raises =
        (fallback_selection q abis maxc).map PyVal.vStr) ∧
    (∀ (q : PyStr) (abis : List (PyStr × List (PyStr × PyVal))) (maxc : Nat)
        (outcome : LLMOutcome),
      (select_contracts q abis maxc outcome).length ≤ maxc) ∧
    (∀ (q : PyStr) (abis : List (PyStr × List (PyStr × PyVal))) (maxc : Nat)
        (kvs : List (PyStr × PyVal)),
      List.lookup (S "selected_contracts") kvs = none →
      select_contracts q abis maxc (.returns (.vDict kvs)) = []) ∧
    (∀ (q : PyStr) (abis : List (PyStr × List (PyStr × PyVal))) (maxc : Nat)
        (s : PyStr),
      select_contracts q abis maxc (.returns (.vStr s)) = []) := by
  refine ⟨fun q abis maxc => rfl, ?_, ?_, fun q abis maxc s => rfl⟩
  · intro q abis maxc outcome
    cases outcome with
    | raises =>
      show ((fallback_selection q abis maxc).map PyVal.vStr).length ≤ maxc
      rw [List.length_map]
      unfold fallback_selection
      rw [List.length_map]
      exact List.length_take_le _ _
    | returns v =>
      cases v with
      | vDict kvs =>
        cases hl : List.lookup (S "selected_contracts") kvs with
        | none => simp [select_contracts, hl]
        | some sel =>
          cases sel with
          | vList contracts =>
            simp only [select_contracts, hl]
            exact List.length_take_le _ _
          | vInt n => simp [select_contracts, hl]
          | vBool b => simp [select_contracts, hl]
          | vStr s => simp [select_contracts, hl]
          | vDict kvs2 => simp [select_contracts, hl]
      | vInt n => simp [select_contracts]
      | vBool b => simp [select_contracts]
      | vStr s => simp [select_contracts]
      | vList xs => simp [select_contracts]
  · intro q abis maxc kvs h
    simp [select_contracts, h]

/-- C1 witness: the amended theorem applied at a concrete malformed response
(an empty dict, whose `selected_contracts` lookup is `none`). -/
theorem claim_C1_witness :
    select_contracts (S "q") [] 3 (.returns (.vDict [])) = [] :=
  claim_C1_amended.2.2.1 (S "q") [] 3 [] rfl

/-- C2: the code normalizes booleans to `"True"`/`"False"`, not the
documented `"true"`/`"false"` — in Python `bool` is a subclass of `int`, so
the leading `isinstance(value, (int, float))` branch catches booleans and the
dedicated lower-casing bool branch is dead code. -/
theorem claim_C2_bool_normalization :
    normalize_parameter_value (.vBool true) = S "True" ∧
    normalize_parameter_value (.vBool false) = S "False" ∧
    normalize_parameter_value (.vBool true) ≠ S "true" ∧
    normalize_parameter_value (.vBool false) ≠ S "false" := by
  refine ⟨rfl, rfl, by decide, by decide⟩

/-- C4 counterexample: the key `x_mintfee` ends in the currency-fee suffix
`_mintfee` and both values are digit strings `5 ≠ 6`, yet its per-key
similarity is the string similarity 0, not the claimed numeric-closeness
value 5/6 — the code matches the key list `['amount', 'value', '_mintfee']`
exactly, not by suffix. -/
theorem claim_C4_counterexample :
    (S "_mintfee" <:+ pyLower (S "x_mintfee")) ∧
    isDigitStr (S "5") = true ∧ isDigitStr (S "6") = true ∧ S "5" ≠ S "6" ∧
    perKeySimilarity (S "x_mintfee") (S "5") (S "6") = 0 ∧
    max 0 (1 - |(digitsToNat (S "5") : ℚ) - (digitsToNat (S "6") : ℚ)| /
      max (max (digitsToNat (S "5") : ℚ) (digitsToNat (S "6") : ℚ)) 1) = 5 / 6 ∧
    (0 : ℚ) ≠ 5 / 6 := by
  with_unfolding_all decide

/-- C4 (amended): for every key whose lower-casing is exactly one of
`amount`, `value`, `_mintfee` (not merely suffixed) and whose two normalized
values are distinct digit strings, the per-key similarity is
`max(0, 1 - |a-b| / max(a, b, 1))`; and on the token/amount pair differing in
one digit, `compare_parameters` returns `exactMatch = false` with overall
similarity 59/60, strictly between 0 and 1. -/
theorem claim_C4_amount_similarity :
    (∀ (key ev av : PyStr), pyLower key ∈ amountLikeKeys → isDigitStr ev = true →
      isDigitStr av = true → ev ≠ av →
      perKeySimilarity key ev av =
        max 0 (1 - |(digitsToNat ev : ℚ) - (digitsToNat av : ℚ)| /
          max (max (digitsToNat ev : ℚ) (digitsToNat av : ℚ)) 1)) ∧
    compare_parameters
        [(S "token", .vStr (S "0xT")), (S "amount", .vInt 150000000000000000000)]
        [(S "token", .vStr (S "0xT")), (S "amount", .vInt 140000000000000000000)] =
      (false, 59 / 60) ∧
    (0 : ℚ) < 59 / 60 ∧ (59 : ℚ) / 60 < 1 := by
  refine ⟨?_, ?_, ?_, ?_⟩
  · intro key ev av hmem hde hda hne
    unfold perKeySimilarity
    rw [if_neg hne, if_pos ⟨hmem, hde, hda⟩]
  · with_unfolding_all decide
  · norm_num
  · norm_num

/-- C4 witness: the amended per-key formula applied at the key `amount` with
values `150` and `140`. -/
theorem claim_C4_witness :
    perKeySimilarity (S "amount") (S "150") (S "140") =
      max 0 (1 - |(digitsToNat (S "150") : ℚ) - (digitsToNat (S "140") : ℚ)| /
        max (max (digitsToNat (S "150") : ℚ) (digitsToNat (S "140") : ℚ)) 1) :=
  claim_C4_amount_similarity.1 (S "amount") (S "150") (S "140") (by decide) (by decide)
    (by decide) (by decide)

/-- C8: aggregating an empty evaluation list yields the all-zero
`TestMetrics` record — every count 0 and every ratio 0 — rather than an
error. -/
theorem claim_C8_aggregate_empty :
    calculate_aggregate_metrics [] = ⟨0, 0, 0, 0, 0, 0, 0, 0, 0, 0, 0, 0, 0, 0⟩ := rfl

/-- C9: on string-typed inputs the normalizer is idempotent — normalizing a
normalized string (lower-case then strip) changes nothing. -/
theorem claim_C9_normalize_idempotent (s : PyStr) :
    normalize_parameter_value (.vStr (normalize_parameter_value (.vStr s))) =
      normalize_parameter_value (.vStr s) := by
  show pyStrip (pyLower (pyStrip (pyLower s))) = pyStrip (pyLower s)
  rw [pyLower_pyStrip_pyLower, pyStrip_idem]

/-- C10: the string-similarity routine returns 0 whenever either input is
empty — including two equal empty strings — and consequently an evaluation
whose actual and expected rewritten queries are both empty gets query
similarity 0 and `overall_match = false` even though the contract matches and
the function calls match exactly. -/
theorem claim_C10_empty_similarity :
    (∀ s : PyStr, calculate_string_similarity [] s = 0) ∧
    (∀ s : PyStr, calculate_string_similarity s [] = 0) ∧
    (evaluate_test_case c10Actual c10Expected).rewritten_query_similarity = 0 ∧
    (evaluate_test_case c10Actual c10Expected).overall_match = false ∧
    (evaluate_test_case c10Actual c10Expected).contract_selection_match = true ∧
    (evaluate_test_case c10Actual c10Expected).function_call_metrics.exact_match = true := by
  refine ⟨fun s => rfl, fun s => ?_, ?_, ?_, ?_, ?_⟩
  · unfold calculate_string_similarity
    simp
  · with_unfolding_all decide
  · with_unfolding_all decide
  · with_unfolding_all decide
  · with_unfolding_all decide

theorem score_pos_of_ite_eq_some {a : PyStr} {cd : List (PyStr × PyVal)}
    {mf : List PyStr} {sc : Int} {rc : RelevantContract}
    (h : (if 0 < sc then some (⟨a, sc, cd, mf⟩ : RelevantContract) else none) = some rc) :
    0 < rc.score := by
  split at h
  · injection h with h'
    subst h'
    assumption
  · simp at h

theorem relevantCandidates_score_pos (abis : List (PyStr × List (PyStr × PyVal)))
    (query : PyStr) (rc : RelevantContract) (h : rc ∈ relevantCandidates abis query) :
    0 < rc.score := by
  unfold relevantCandidates at h
  rw [List.mem_filterMap] at h
  obtain ⟨ab, -, hab⟩ := h
  simp only [scoreContract] at hab
  split at hab
  · simp at hab
  · exact score_pos_of_ite_eq_some hab

/-- C5: every candidate `find_relevant_contracts` returns has strictly
positive score; the returned sequence is sorted in descending score order;
within each score the returned candidates are an initial segment of the
positive-score candidates in original insertion order (stable tie-breaking);
and the result has at most `max_contracts` entries. -/
theorem claim_C5_relevance_invariants (abis : List (PyStr × List (PyStr × PyVal)))
    (query : PyStr) (maxc : Nat) :
    (∀ rc ∈ find_relevant_contracts abis query maxc, 0 < rc.score) ∧
    (find_relevant_contracts abis query maxc).Pairwise (fun a b => b.score ≤ a.score) ∧
    (∀ s : Int,
      (find_relevant_contracts abis query maxc).filter (fun rc => decide (rc.score = s)) <+:
        (relevantCandidates abis query).filter (fun rc => decide (rc.score = s))) ∧
    (find_relevant_contracts abis query maxc).length ≤ maxc := by
  refine ⟨?_, ?_, ?_, ?_⟩
  · intro rc hrc
    have h1 : rc ∈ sortDescBy (fun rc => rc.score) (relevantCandidates abis query) :=
      List.take_subset _ _ hrc
    have h2 : rc ∈ relevantCandidates abis query := (mem_sortDescBy _ _ _).mp h1
    exact relevantCandidates_score_pos abis query rc h2
  · exact List.Pairwise.sublist (List.take_sublist _ _) (pairwise_sortDescBy _ _)
  · intro s
    have hpre : List.take maxc (sortDescBy (fun rc => rc.score) (relevantCandidates abis query))
        <+: sortDescBy (fun rc => rc.score) (relevantCandidates abis query) :=
      List.take_prefix _ _
    have hf := hpre.filter (fun rc => decide (rc.score = s))
    have heq := filter_sortDescBy (fun rc : RelevantContract => rc.score) s
      (relevantCandidates abis query)
    rw [heq] at hf
    exact hf
  · exact List.length_take_le _ _

/-- C5 witness: the invariants applied to the concrete multisig candidate
set, showing the single scored candidate (score 53) is positive. -/
theorem claim_C5_witness : 0 < c5Candidate.score := by
  apply (claim_C5_relevance_invariants c5Abis (S "add a new owner") 5).1
  have hres : find_relevant_contracts c5Abis (S "add a new owner") 5 = [c5Candidate] := by
    with_unfolding_all rfl
  rw [hres]
  exact List.mem_singleton_self _

theorem exact_match_count_iff (ek ak : List PyStr) (nE nA : PyStr → PyStr)
    (hEnd : ek.Nodup) (hAnd : ak.Nodup) :
    (ek.length = ak.length ∧
        ak.length =
          (ek.filter (fun k => ak.contains k)).countP (fun k => decide (nE k = nA k))) ↔
      ((∀ k, k ∈ ak ↔ k ∈ ek) ∧ ∀ k, k ∈ ak → k ∈ ek → nE k = nA k) := by
  constructor
  · rintro ⟨h1, h2⟩
    have hmle : (ek.filter (fun k => ak.contains k)).countP
        (fun k => decide (nE k = nA k)) ≤ (ek.filter (fun k => ak.contains k)).length :=
      List.countP_le_length _
    have hile : (ek.filter (fun k => ak.contains k)).length ≤ ek.length :=
      List.length_filter_le _ _
    have hlen_i : (ek.filter (fun k => ak.contains k)).length = ek.length := by omega
    have hieq : ek.filter (fun k => ak.contains k) = ek :=
      (List.filter_sublist _).eq_of_length hlen_i
    have hsub : ∀ k ∈ ek, k ∈ ak := by
      intro k hk
      exact (contains_iff_mem ak k).mp (List.filter_eq_self.mp hieq k hk)
    have hfsub : ek.toFinset ⊆ ak.toFinset := by
      intro k hk
      rw [List.mem_toFinset] at hk ⊢
      exact hsub k hk
    have hcard_e : ek.toFinset.card = ek.length := List.toFinset_card_of_nodup hEnd
    have hcard_a : ak.toFinset.card = ak.length := List.toFinset_card_of_nodup hAnd
    have hfeq : ek.toFinset = ak.toFinset :=
      Finset.eq_of_subset_of_card_le hfsub (by omega)
    have hcnt : (ek.filter (fun k => ak.contains k)).countP
        (fun k => decide (nE k = nA k)) = (ek.filter (fun k => ak.contains k)).length := by
      omega
    have hall := List.countP_eq_length.mp hcnt
    constructor
    · intro k
      constructor
      · intro hk
        have hk' : k ∈ ak.toFinset := List.mem_toFinset.mpr hk
        rw [← hfeq] at hk'
        exact List.mem_toFinset.mp hk'
      · exact hsub k
    · intro k _ hkE
      have hk_in : k ∈ ek.filter (fun k => ak.contains k) := by
        rw [hieq]
        exact hkE
      exact of_decide_eq_true (hall k hk_in)
  · rintro ⟨hiff, hval⟩
    have hfeq : ak.toFinset = ek.toFinset := by
      ext k
      rw [List.mem_toFinset, List.mem_toFinset]
      exact hiff k
    have hcard_e : ek.toFinset.card = ek.length := List.toFinset_card_of_nodup hEnd
    have hcard_a : ak.toFinset.card = ak.length := List.toFinset_card_of_nodup hAnd
    have hlen : ek.length = ak.length := by
      rw [← hcard_e, ← hcard_a, hfeq]
    have hieq : ek.filter (fun k => ak.contains k) = ek := by
      apply List.filter_eq_self.mpr
      intro k hk
      exact (contains_iff_mem ak k).mpr ((hiff k).mpr hk)
    have hcnt : (ek.filter (fun k => ak.contains k)).countP
        (fun k => decide (nE k = nA k)) = (ek.filter (fun k => ak.contains k)).length := by
      apply List.countP_eq_length.mpr
      intro a ha
      apply decide_eq_true
      have haE : a ∈ ek := by
        rw [← hieq]
        exact ha
      exact hval a ((hiff a).mpr haE) haE
    have hli : (ek.filter (fun k => ak.contains k)).length = ek.length := by
      rw [hieq]
    exact ⟨hlen, by omega⟩

/-- C3: for non-empty parameter dicts (whose key lists are duplicate-free, as
Python dict keys are), the `exact_match` flag of `compare_parameters` is true
exactly when the two key sets coincide and every common key's normalized
values are equal. -/
theorem claim_C3_exact_match_iff (actual expected : List (PyStr × PyVal))
    (hA : actual ≠ []) (hE : expected ≠ [])
    (hAnd : (keysOf actual).Nodup) (hEnd : (keysOf expected).Nodup) :
    (compare_parameters actual expected).1 = true ↔
      ((∀ k, k ∈ keysOf actual ↔ k ∈ keysOf expected) ∧
        ∀ k, k ∈ keysOf actual → k ∈ keysOf expected →
          normalizedAt expected k = normalizedAt actual k) := by
  have hA' : actual.isEmpty = false := by
    rw [Bool.eq_false_iff, Ne, List.isEmpty_iff]
    exact hA
  have hE' : expected.isEmpty = false := by
    rw [Bool.eq_false_iff, Ne, List.isEmpty_iff]
    exact hE
  simp only [compare_parameters, hA', hE', Bool.false_and, Bool.false_or,
    Bool.false_eq_true, if_false, decide_eq_true_eq]
  exact exact_match_count_iff (keysOf expected) (keysOf actual)
    (normalizedAt expected) (normalizedAt actual) hEnd hAnd

/-- C3 witness: the characterization applied to a pair of identical singleton
parameter sets. -/
theorem claim_C3_witness :
    (compare_parameters [(S "a", .vInt 1)] [(S "a", .vInt 1)]).1 = true ↔
      ((∀ k, k ∈ keysOf [(S "a", .vInt 1)] ↔ k ∈ keysOf [(S "a", .vInt 1)]) ∧
        ∀ k, k ∈ keysOf [(S "a", .vInt 1)] → k ∈ keysOf [(S "a", .vInt 1)] →
          normalizedAt [(S "a", .vInt 1)] k = normalizedAt [(S "a", .vInt 1)] k) :=
  claim_C3_exact_match_iff [(S "a", .vInt 1)] [(S "a", .vInt 1)] (by simp) (by simp)
    (by simp [keysOf]) (by simp [keysOf])

/-- C6: for non-empty call sequences, `compare_function_calls` compares
position-by-position over the zip of the two sequences (length
`min(len(actual), len(expected))`): `call_count_match` is exactly length
equality, the similarity score is the 0.4/0.4/0.2 weighted sum of the three
accuracies, and `exact_match` holds exactly when the counts match, the
function-name accuracy is 1, every per-position parameter similarity is at
least 0.95, and the value accuracy is 1. -/
theorem claim_C6_call_comparator (actual expected : List FCall)
    (hA : actual ≠ []) (hE : expected ≠ []) :
    ((compare_function_calls actual expected).call_count_match =
        decide (actual.length = expected.length)) ∧
    ((compare_function_calls actual expected).similarity_score =
        (0.4 : ℚ) * (compare_function_calls actual expected).function_name_accuracy +
          (0.4 : ℚ) * (compare_function_calls actual expected).parameter_accuracy +
          (0.2 : ℚ) * (compare_function_calls actual expected).value_accuracy) ∧
    ((compare_function_calls actual expected).exact_match = true ↔
      (actual.length = expected.length ∧
        (compare_function_calls actual expected).function_name_accuracy = 1 ∧
        (∀ p ∈ (actual.zip expected).map
            (fun p => (compare_parameters p.1.parameters p.2.parameters).2),
          (0.95 : ℚ) ≤ p) ∧
        (compare_function_calls actual expected).value_accuracy = 1)) := by
  have hA' : actual.isEmpty = false := by
    rw [Bool.eq_false_iff, Ne, List.isEmpty_iff]
    exact hA
  have hE' : expected.isEmpty = false := by
    rw [Bool.eq_false_iff, Ne, List.isEmpty_iff]
    exact hE
  simp only [compare_function_calls, hA', hE', Bool.false_and, Bool.false_or,
    Bool.false_eq_true, if_false]
  refine ⟨trivial, by ring, ?_⟩
  simp only [Bool.and_eq_true, decide_eq_true_eq, List.all_eq_true, and_assoc]

/-- C6 witness: the comparator characterization applied to two identical
singleton call lists. -/
theorem claim_C6_witness :
    ((compare_function_calls [⟨S "transfer", [], .vStr (S "0")⟩]
        [⟨S "transfer", [], .vStr (S "0")⟩]).call_count_match =
      decide (([⟨S "transfer", [], .vStr (S "0")⟩] : List FCall).length =
        ([⟨S "transfer", [], .vStr (S "0")⟩] : List FCall).length)) :=
  (claim_C6_call_comparator [⟨S "transfer", [], .vStr (S "0")⟩]
    [⟨S "transfer", [], .vStr (S "0")⟩] (by simp) (by simp)).1

/-- C7: for a successful agent result, `overall_match` holds exactly when the
rewritten-query similarity is at least 0.7, the contract matches, and the
function-call comparison is an exact match; and the contract match holds
exactly when both addresses are non-empty and equal after lower-casing. -/
theorem claim_C7_overall_match (a : AgentResult) (e : ExpectedResult)
    (hs : a.success = true) :
    ((evaluate_test_case a e).overall_match = true ↔
      ((0.7 : ℚ) ≤ calculate_string_similarity a.rewritten_query e.expected_rewritten_query ∧
        (evaluate_test_case a e).contract_selection_match = true ∧
        (compare_function_calls a.function_calls e.ground_truth_function_calls).exact_match =
          true)) ∧
    ((evaluate_test_case a e).contract_selection_match = true ↔
      (a.selected_contract_address ≠ [] ∧ e.assumed_contract_address ≠ [] ∧
        pyLower a.selected_contract_address = pyLower e.assumed_contract_address)) := by
  simp only [evaluate_test_case, hs, Bool.not_true, Bool.false_eq_true, if_false]
  constructor
  · simp only [Bool.and_eq_true, decide_eq_true_eq, and_assoc]
  · split
    · rename_i hcond
      simp only [Bool.and_eq_true, Bool.not_eq_true'] at hcond
      obtain ⟨h1, h2⟩ := hcond
      rw [Bool.eq_false_iff, Ne, List.isEmpty_iff] at h1 h2
      simp only [decide_eq_true_eq]
      tauto
    · rename_i hcond
      simp only [Bool.and_eq_true, Bool.not_eq_true'] at hcond
      constructor
      · intro hfalse
        exact absurd hfalse (by simp)
      · rintro ⟨h1, h2, -⟩
        refine absurd ⟨?_, ?_⟩ hcond
        · rw [Bool.eq_false_iff, Ne, List.isEmpty_iff]
          exact h1
        · rw [Bool.eq_false_iff, Ne, List.isEmpty_iff]
          exact h2

/-- C7 witness: the characterization applied to the concrete successful
result `c10Actual` against `c10Expected`. -/
theorem claim_C7_witness :
    ((evaluate_test_case c10Actual c10Expected).overall_match = true ↔
      ((0.7 : ℚ) ≤ calculate_string_similarity c10Actual.rewritten_query
          c10Expected.expected_rewritten_query ∧
        (evaluate_test_case c10Actual c10Expected).contract_selection_match = true ∧
        (compare_function_calls c10Actual.function_calls
            c10Expected.ground_truth_function_calls).exact_match = true)) ∧
    ((evaluate_test_case c10Actual c10Expected).contract_selection_match = true ↔
      (c10Actual.selected_contract_address ≠ [] ∧
        c10Expected.assumed_contract_address ≠ [] ∧
        pyLower c10Actual.selected_contract_address =
          pyLower c10Expected.assumed_contract_address)) :=
  claim_C7_overall_match c10Actual c10Expected rfl

/-- C9 witness: idempotence at a concrete mixed-case padded string. -/
theorem claim_C9_witness :
    normalize_parameter_value (.vStr (normalize_parameter_value (.vStr (S "  AbC ")))) =
      normalize_parameter_value (.vStr (S "  AbC ")) :=
  claim_C9_normalize_idempotent (S "  AbC ")

/-- C10 witness: the empty-string similarity rule at a concrete non-empty
second argument. -/
theorem claim_C10_witness : calculate_string_similarity [] (S "x") = 0 :=
  claim_C10_empty_similarity.1 (S "x")

end AbiFw
